import Mathlib

/-
  Verification of the clover-web3-connector wallet connector
  (src/src/index.ts, class ClvWallet).

  The TypeScript source is shallowly embedded as follows:
  - the host Actions surface and the provider request surface are modelled
    as an effect trace (Effect) emitted by each operation;
  - the injected provider behaviour is an oracle (ConnEnv.respond) indexed
    by a request counter, so that stateful wallets (whose answers change
    after a switch or add) are expressible;
  - the async methods become sequential functions threading a ConnState
    (the mutable fields eagerConnection and provider of the class, plus
    the oracle counter) and returning the trace and the settled outcome of
    the returned promise;
  - the recursion inside activate is bounded by explicit fuel; fuel 0
    stands for a computation that has not been allowed to run.
-/

/-- Error object carried by a rejected provider request (ProviderRpcError). -/
structure RpcError where
  code : Int
  message : String
deriving DecidableEq

/-- Value carried by a fulfilled provider request. -/
inductive RpcResult where
  | str (s : String)
  | accounts (l : List String)
  | nullv
deriving DecidableEq

/-- Reading a result at type string, as the TypeScript cast does. -/
def RpcResult.asString : RpcResult → String
  | RpcResult.str s => s
  | _ => ""

/-- Reading a result at type string list, as the TypeScript cast does. -/
def RpcResult.asAccounts : RpcResult → List String
  | RpcResult.accounts l => l
  | _ => []

/-- The nativeCurrency field of AddEthereumChainParameter. -/
structure NativeCurrency where
  name : String
  symbol : String
  decimals : Nat
deriving DecidableEq

/-- Caller-supplied add-chain parameter set (AddEthereumChainParameter). -/
structure AddEthereumChainParameter where
  chainId : Nat
  chainName : String
  nativeCurrency : NativeCurrency
  rpcUrls : List String
  blockExplorerUrls : Option (List String)
  iconUrls : Option (List String)
deriving DecidableEq

/-- Params object of a wallet_addEthereumChain request.  The object literal
    in the source is a spread of the caller argument with the chainId field
    overridden by a hex string; it is represented exactly as that pair:
    the spread source (none when the spread source is undefined) and the
    overriding chainId. -/
structure AddChainRequest where
  spreadSource : Option AddEthereumChainParameter
  chainId : String
deriving DecidableEq

/-- Requests the connector issues against the provider. -/
inductive Request where
  | ethChainId
  | ethAccounts
  | ethRequestAccounts
  | walletSwitchEthereumChain (chainId : String)
  | walletAddEthereumChain (p : AddChainRequest)
deriving DecidableEq

/-- Stable references for the four handler closures registered on the
    provider during initialization. -/
inductive HandlerId where
  | hConnect
  | hDisconnect
  | hChainChanged
  | hAccountsChanged
deriving DecidableEq

/-- Observable calls made by the connector against the host Actions
    surface, the provider, and the console. -/
inductive Effect where
  | request (r : Request)
  | update (chainId : Option (Option Nat)) (accounts : Option (List String))
  | resetState
  | startActivation
  | cancelActivation
  | onError (e : RpcError)
  | subscribe (event : String) (handler : HandlerId)
  | removeListener (event : String) (handler : HandlerId)
  | consoleDebug
deriving DecidableEq

def Effect.isRequest : Effect → Bool
  | Effect.request _ => true
  | _ => false

def Effect.isUpdate : Effect → Bool
  | Effect.update _ _ => true
  | _ => false

def Effect.isResetState : Effect → Bool
  | Effect.resetState => true
  | _ => false

def Effect.isStartActivation : Effect → Bool
  | Effect.startActivation => true
  | _ => false

def Effect.isSubscribe : Effect → Bool
  | Effect.subscribe _ _ => true
  | _ => false

/-- One entry of a window.clover.providers array (or the bare injected
    object itself).  The tag field gives entries an identity so that
    distinct entries with equal flags can be told apart. -/
structure ProviderEntry where
  isClover : Bool
  tag : Nat
deriving DecidableEq

/-- The raw injected window.clover object: itself usable as a provider,
    optionally exposing a providers array. -/
structure InjectedProvider where
  base : ProviderEntry
  providers : Option (List ProviderEntry)
deriving DecidableEq

/-- Provider selection from isomorphicInitialize: when a non-empty
    providers array is exposed, the first entry whose isClover flag is set,
    else the first entry; otherwise the raw object itself. -/
def selectProvider (ip : InjectedProvider) : ProviderEntry :=
  match ip.providers with
  | some (p :: ps) => ((p :: ps).find? (fun q => q.isClover)).getD p
  | _ => ip.base

/-- Mutable state of a ClvWallet instance: whether the memoized
    initialization promise exists, the selected provider, and the oracle
    counter used to sequence provider requests. -/
structure ConnState where
  eagerConnection : Bool
  provider : Option ProviderEntry
  counter : Nat
deriving DecidableEq

/-- External world: the injected object (none when the wallet extension is
    not installed, also after the detection window) and the provider
    behaviour, given as a response oracle indexed by the request counter. -/
structure ConnEnv where
  clover : Option InjectedProvider
  respond : Nat → Request → Except RpcError RpcResult

/-- Value of one hex digit, as consumed by Number.parseInt with radix 16. -/
def hexDigitVal (c : Char) : Option Nat :=
  if ('0') ≤ c ∧ c ≤ ('9') then some (c.toNat - ('0').toNat)
  else if ('a') ≤ c ∧ c ≤ ('f') then some (c.toNat - ('a').toNat + 10)
  else if ('A') ≤ c ∧ c ≤ ('F') then some (c.toNat - ('A').toNat + 10)
  else none

/-- Longest leading run of hex digits; none when no digit was consumed,
    which models a NaN outcome of Number.parseInt. -/
def takeHexNat : List Char → Nat → Bool → Option Nat
  | [], acc, seen => if seen then some acc else none
  | c :: rest, acc, seen =>
    match hexDigitVal c with
    | some d => takeHexNat rest (acc * 16 + d) true
    | none => if seen then some acc else none

/-- Dropping an optional leading 0x or 0X radix mark, as Number.parseInt
    with radix 16 does. -/
def stripHexMark : List Char → List Char
  | ('0') :: ('x') :: rest => rest
  | ('0') :: ('X') :: rest => rest
  | cs => cs

/-- The parseChainId helper of the source: Number.parseInt(chainId, 16).
    The result none models NaN. -/
def parseChainId (s : String) : Option Nat :=
  takeHexNat (stripHexMark s.data) 0 false

/-- Hex rendering of the desired chain id, as the template literal
    appending 0x to Number.toString(16) does. -/
def toHexString (n : Nat) : String :=
  "0x" ++ String.mk (Nat.toDigits 16 n)

/-- JavaScript truthiness test on a possibly-undefined number: undefined
    and 0 are falsy. -/
def jsFalsy : Option Nat → Bool
  | none => true
  | some n => n == 0

/-- JavaScript strict equality between the parsed received chain id (none
    models NaN) and the possibly-undefined desired chain id. -/
def jsEq : Option Nat → Option Nat → Bool
  | some a, some b => a == b
  | _, _ => false

/-- Argument of activate: a bare numeric chain id or a full add-chain
    parameter set. -/
inductive ActivateArg where
  | id (n : Nat)
  | params (p : AddEthereumChainParameter)
deriving DecidableEq

/-- The desired chain id extracted from the activate argument. -/
def desiredChainIdOf : Option ActivateArg → Option Nat
  | some (ActivateArg.id n) => some n
  | some (ActivateArg.params p) => some p.chainId
  | none => none

/-- The typeof test against number performed in the catch handler. -/
def argIsNumber : Option ActivateArg → Bool
  | some (ActivateArg.id _) => true
  | _ => false

/-- The spread source used when building the add-chain request params. -/
def argSpread : Option ActivateArg → Option AddEthereumChainParameter
  | some (ActivateArg.params p) => some p
  | _ => none

/-- The four (event, handler) pairs registered on the selected provider by
    isomorphicInitialize, in registration order. -/
def registeredBindings : List (String × HandlerId) :=
  [("connect", HandlerId.hConnect),
   ("disconnect", HandlerId.hDisconnect),
   ("chainChanged", HandlerId.hChainChanged),
   ("accountsChanged", HandlerId.hAccountsChanged)]

/-- Subscription effects emitted while wiring the event bridge. -/
def subscribeEffects : List Effect :=
  registeredBindings.map (fun b => Effect.subscribe b.1 b.2)

/-- Payload delivered to an event handler. -/
inductive EventPayload where
  | chainInfo (chainId : String)
  | err (e : RpcError)
  | accountList (l : List String)
deriving DecidableEq

/-- Semantics of the four handler closures registered in
    isomorphicInitialize (src lines 67-87): the host calls each closure
    performs for a delivered payload. -/
def runHandler : HandlerId → EventPayload → List Effect
  | HandlerId.hConnect, EventPayload.chainInfo c =>
      [Effect.update (some (parseChainId c)) none]
  | HandlerId.hDisconnect, EventPayload.err e =>
      [Effect.resetState, Effect.onError e]
  | HandlerId.hChainChanged, EventPayload.chainInfo c =>
      [Effect.update (some (parseChainId c)) none]
  | HandlerId.hAccountsChanged, EventPayload.accountList l =>
      if l.length = 0 then [Effect.resetState]
      else [Effect.update none (some l)]
  | _, _ => []

/-- The isomorphicInitialize method: memoized detection, selection and
    event subscription.  When the memo field is already set the call
    returns at once with no effects; otherwise detection resolves with
    window.clover, and if an object is present the provider is selected
    and the four handlers are subscribed. -/
def isomorphicInit (env : ConnEnv) (st : ConnState) : ConnState × List Effect :=
  if st.eagerConnection then (st, [])
  else
    match env.clover with
    | none => ({ st with eagerConnection := true }, [])
    | some ip =>
      ({ st with eagerConnection := true, provider := some (selectProvider ip) },
       subscribeEffects)

/-- Promise.all over the eth_chainId request and a second request: both
    requests are issued, then the pair of fulfillments is produced, or the
    first rejection in issue order. -/
def requestPair (env : ConnEnv) (st : ConnState) (second : Request) :
    ConnState × List Effect × Except RpcError (RpcResult × RpcResult) :=
  let r1 := env.respond st.counter Request.ethChainId
  let r2 := env.respond (st.counter + 1) second
  let st2 := { st with counter := st.counter + 2 }
  let tr := [Effect.request Request.ethChainId, Effect.request second]
  match r1 with
  | Except.error e => (st2, tr, Except.error e)
  | Except.ok v1 =>
    match r2 with
    | Except.error e => (st2, tr, Except.error e)
    | Except.ok v2 => (st2, tr, Except.ok (v1, v2))

/-- Internal error of the connectEagerly promise chain before its final
    catch: a rejected provider request, or the thrown Error when no
    accounts were returned. -/
inductive CEError where
  | rpc (e : RpcError)
  | noAccounts
deriving DecidableEq

/-- The connectEagerly method: startActivation, initialization, then
    either cancellation (provider absent) or the chainId/accounts request
    pair; any failure past detection is swallowed by the final catch,
    which logs and resets host state. -/
def connectEagerly (env : ConnEnv) (st : ConnState) :
    ConnState × List Effect × Except CEError Unit :=
  let ini := isomorphicInit env st
  match ini.1.provider with
  | none =>
    (ini.1, Effect.startActivation :: ini.2 ++ [Effect.cancelActivation], Except.ok ())
  | some _ =>
    let q := requestPair env ini.1 Request.ethAccounts
    let inner : List Effect × Except CEError Unit :=
      match q.2.2 with
      | Except.error e => (q.2.1, Except.error (CEError.rpc e))
      | Except.ok vp =>
        if (RpcResult.asAccounts vp.2).length != 0 then
          (q.2.1 ++ [Effect.update (some (parseChainId (RpcResult.asString vp.1)))
                       (some (RpcResult.asAccounts vp.2))],
           Except.ok ())
        else
          (q.2.1, Except.error CEError.noAccounts)
    match inner.2 with
    | Except.ok _ =>
      (q.1, Effect.startActivation :: ini.2 ++ inner.1, Except.ok ())
    | Except.error _ =>
      (q.1,
       Effect.startActivation :: ini.2 ++ inner.1 ++ [Effect.consoleDebug, Effect.resetState],
       Except.ok ())

/-- Outcome of the promise returned by activate. -/
inductive ActivateError where
  | noWallet
  | rpc (e : RpcError)
  | outOfFuel
deriving DecidableEq

/-- The activate method.  After initialization: throw when no provider;
    request the chainId/requestAccounts pair; settle with update when no
    desired chain or it equals the received one; otherwise request a chain
    switch, on the unrecognized-chain code with non-numeric argument
    request a chain add, and after a successful switch or add recurse with
    the bare desired id.  The final catch of the source only rethrows. -/
def activate (env : ConnEnv) :
    Nat → ConnState → Option ActivateArg → ConnState × List Effect × Except ActivateError Unit
  | 0, st, _ => (st, [], Except.error ActivateError.outOfFuel)
  | fuel + 1, st, argOpt =>
    let ini := isomorphicInit env st
    match ini.1.provider with
    | none => (ini.1, ini.2, Except.error ActivateError.noWallet)
    | some _ =>
      let q := requestPair env ini.1 Request.ethRequestAccounts
      match q.2.2 with
      | Except.error e => (q.1, ini.2 ++ q.2.1, Except.error (ActivateError.rpc e))
      | Except.ok vp =>
        let receivedChainId := parseChainId (RpcResult.asString vp.1)
        let accounts := RpcResult.asAccounts vp.2
        let desired := desiredChainIdOf argOpt
        if jsFalsy desired || jsEq receivedChainId desired then
          (q.1, ini.2 ++ q.2.1 ++ [Effect.update (some receivedChainId) (some accounts)],
           Except.ok ())
        else
          let d := desired.getD 0
          let swReq := Request.walletSwitchEthereumChain (toHexString d)
          let st3 := { q.1 with counter := q.1.counter + 1 }
          match env.respond q.1.counter swReq with
          | Except.ok _ =>
            let rec1 := activate env fuel st3 (some (ActivateArg.id d))
            (rec1.1, ini.2 ++ q.2.1 ++ [Effect.request swReq] ++ rec1.2.1, rec1.2.2)
          | Except.error e =>
            if e.code == 4902 && !(argIsNumber argOpt) then
              let addReq := Request.walletAddEthereumChain
                { spreadSource := argSpread argOpt, chainId := toHexString d }
              let st4 := { st3 with counter := st3.counter + 1 }
              match env.respond st3.counter addReq with
              | Except.error e2 =>
                (st4, ini.2 ++ q.2.1 ++ [Effect.request swReq, Effect.request addReq],
                 Except.error (ActivateError.rpc e2))
              | Except.ok _ =>
                let rec2 := activate env fuel st4 (some (ActivateArg.id d))
                (rec2.1,
                 ini.2 ++ q.2.1 ++ [Effect.request swReq, Effect.request addReq] ++ rec2.2.1,
                 rec2.2.2)
            else
              (st3, ini.2 ++ q.2.1 ++ [Effect.request swReq],
               Except.error (ActivateError.rpc e))

/-- Params of the wallet_addEthereumChain requests occurring in a trace. -/
def addRequests (tr : List Effect) : List AddChainRequest :=
  tr.filterMap (fun e =>
    match e with
    | Effect.request (Request.walletAddEthereumChain r) => some r
    | _ => none)

/-- Turning a subscription effect into the matching unsubscription. -/
def toRemoval : Effect → Effect
  | Effect.subscribe ev h => Effect.removeListener ev h
  | e => e

/-- Modelled from the spec: the deactivate operation is not part of
    src/src/index.ts (it lives in another variant of this repository), so
    it is taken from the spec words: deactivate unregisters every handler
    that was registered, using the same handler references. -/
def deactivate : List Effect :=
  registeredBindings.map (fun b => Effect.removeListener b.1 b.2)

/-- Modelled from the spec: the probe surface seen by the getChainId and
    getAccount fallback chains, which are not part of src/src/index.ts
    (they live in another variant of this repository).  Each field is the
    value one probe strategy can obtain from the provider; none stands for
    a thrown error or an unusable result. -/
structure QueryProvider where
  ethChainIdResult : Option String
  netVersionSendResult : Option String
  netVersionCallbackResult : Option String
  isCloverFlag : Bool
  cloverCachedChainId : Option String
  chainIdProp : Option String
  netVersionProp : Option String
  networkVersionProp : Option String
  underscoreChainIdProp : Option String
  ethAccountsResult : Option (List String)
  enableResult : Option (List String)
  accountsCallbackResult : Option (List String)
deriving DecidableEq

/-- A string strategy outcome is usable when present and non-empty. -/
def usableStr : Option String → Option String
  | some s => if s = "" then none else some s
  | none => none

/-- An accounts strategy outcome is usable when present and non-empty. -/
def usableAccounts : Option (List String) → Option (List String)
  | some [] => none
  | some (a :: l) => some (a :: l)
  | none => none

/-- Modelled from the spec: ordered evaluation of probe strategies,
    stopping at the first usable value; every failure falls through to the
    next strategy. -/
def runStrats {α : Type} (usable : Option α → Option α) :
    List (QueryProvider → Option α) → QueryProvider → Option α
  | [], _ => none
  | s :: rest, p =>
    match usable (s p) with
    | some v => some v
    | none => runStrats usable rest p

/-- Modelled from the spec: the chain-id strategies in their fixed order;
    modern request, legacy send, legacy callback send, then the static
    property fallbacks with the vendor flag checked first. -/
def chainIdStrategies : List (QueryProvider → Option String) :=
  [fun p => p.ethChainIdResult,
   fun p => p.netVersionSendResult,
   fun p => p.netVersionCallbackResult,
   fun p => if p.isCloverFlag then p.cloverCachedChainId else none,
   fun p => p.chainIdProp,
   fun p => p.netVersionProp,
   fun p => p.networkVersionProp,
   fun p => p.underscoreChainIdProp]

/-- Modelled from the spec: the account strategies in their fixed order;
    modern accounts request, legacy enable, legacy callback accounts. -/
def accountStrategies : List (QueryProvider → Option (List String)) :=
  [fun p => p.ethAccountsResult,
   fun p => p.enableResult,
   fun p => p.accountsCallbackResult]

/-- Modelled from the spec: getChainId runs the chain-id fallback chain. -/
def getChainId (p : QueryProvider) : Option String :=
  runStrats usableStr chainIdStrategies p

/-- Modelled from the spec: getAccount runs the account fallback chain and
    takes the first returned address. -/
def getAccount (p : QueryProvider) : Option String :=
  match runStrats usableAccounts accountStrategies p with
  | some l => l.head?
  | none => none

/-- Modelled from the spec: the provider-not-installed precondition is the
    only throwing path of the query operations. -/
def getChainIdOp : Option QueryProvider → Except Unit (Option String)
  | none => Except.error ()
  | some p => Except.ok (getChainId p)

/-- Modelled from the spec: getAccount behind the same precondition. -/
def getAccountOp : Option QueryProvider → Except Unit (Option String)
  | none => Except.error ()
  | some p => Except.ok (getAccount p)

/-
  Shared concrete instances used by witnesses.
-/

/-- A sample account address. -/
def addrW : String := "0xabc"

/-- A providers entry carrying the identity flag. -/
def entFlag : ProviderEntry := { isClover := true, tag := 0 }

/-- Providers entries without the identity flag. -/
def entPlainA : ProviderEntry := { isClover := false, tag := 1 }

/-- A second flagless providers entry. -/
def entPlainB : ProviderEntry := { isClover := false, tag := 2 }

/-- An injected object without a providers array. -/
def ipW : InjectedProvider := { base := entFlag, providers := none }

/-- A fresh connector state. -/
def stFresh : ConnState := { eagerConnection := false, provider := none, counter := 0 }

/-- An environment with no injected wallet. -/
def envAbsent : ConnEnv :=
  { clover := none, respond := fun _ _ => Except.ok RpcResult.nullv }

/-- An environment with an injected wallet that fulfils every request. -/
def envPresent : ConnEnv :=
  { clover := some ipW, respond := fun _ _ => Except.ok RpcResult.nullv }

/-- A probe surface on which the first two chain-id strategies fail and
    the third yields a value, and only the callback accounts strategy
    yields addresses. -/
def qpW : QueryProvider :=
  { ethChainIdResult := none,
    netVersionSendResult := some "",
    netVersionCallbackResult := some "0x3",
    isCloverFlag := false,
    cloverCachedChainId := none,
    chainIdProp := none,
    netVersionProp := none,
    networkVersionProp := none,
    underscoreChainIdProp := none,
    ethAccountsResult := none,
    enableResult := some [],
    accountsCallbackResult := some [addrW] }

/-- The success condition of the eager connection attempt: both requests
    fulfilled and the returned accounts list non-empty. -/
def eagerSuccessB : Except RpcError RpcResult → Except RpcError RpcResult → Bool
  | Except.ok _, Except.ok v2 => (RpcResult.asAccounts v2).length != 0
  | _, _ => false

/-- The hex string for chain 1. -/
def hex1 : String := "0x1"

/-- A user-rejection error. -/
def eUser : RpcError := { code := 4001, message := "rejected" }

/-- An unrecognized-chain error. -/
def eChain : RpcError := { code := 4902, message := "unrecognized" }

/-- An initialized connector state with a selected provider. -/
def stReady : ConnState := { eagerConnection := true, provider := some entFlag, counter := 0 }

/-- An environment whose wallet reports chain 1 and rejects the account
    authorization with the user-rejection code. -/
def envReject : ConnEnv :=
  { clover := some ipW,
    respond := fun n r =>
      match n, r with
      | 0, Request.ethChainId => Except.ok (RpcResult.str hex1)
      | 1, Request.ethRequestAccounts => Except.error eUser
      | _, _ => Except.ok RpcResult.nullv }

/-- An environment whose wallet reports chain 1 and rejects the switch to
    chain 5 with the unrecognized-chain code. -/
def envSwitchFail : ConnEnv :=
  { clover := some ipW,
    respond := fun n r =>
      match n, r with
      | 0, Request.ethChainId => Except.ok (RpcResult.str hex1)
      | 1, Request.ethRequestAccounts => Except.ok (RpcResult.accounts [addrW])
      | 2, Request.walletSwitchEthereumChain _ => Except.error eChain
      | _, _ => Except.ok RpcResult.nullv }

/-- The hex string for chain 5. -/
def hex5 : String := "0x5"

/-- A full add-chain parameter set for chain 5. -/
def p5 : AddEthereumChainParameter :=
  { chainId := 5,
    chainName := "Test",
    nativeCurrency := { name := "T", symbol := "T", decimals := 18 },
    rpcUrls := [],
    blockExplorerUrls := none,
    iconUrls := none }

/-- An environment whose wallet is on chain 1, rejects the switch to
    chain 5 with code 4902, accepts the chain add, and reports chain 5 on
    the re-verification. -/
def envAddOk : ConnEnv :=
  { clover := some ipW,
    respond := fun n r =>
      match n, r with
      | 0, Request.ethChainId => Except.ok (RpcResult.str hex1)
      | 1, Request.ethRequestAccounts => Except.ok (RpcResult.accounts [addrW])
      | 2, Request.walletSwitchEthereumChain _ => Except.error eChain
      | 3, Request.walletAddEthereumChain _ => Except.ok RpcResult.nullv
      | 4, Request.ethChainId => Except.ok (RpcResult.str hex5)
      | 5, Request.ethRequestAccounts => Except.ok (RpcResult.accounts [addrW])
      | _, _ => Except.ok RpcResult.nullv }

deriving instance DecidableEq for Except

/-
  Helper lemmas.
-/

theorem find_eq_filter_head {α : Type} (p : α → Bool) :
    ∀ l : List α, l.find? p = (l.filter p).head? := by
  intro l
  induction l with
  | nil => rfl
  | cons a t ih =>
    cases h : p a with
    | true =>
      rw [List.find?_cons_of_pos t h, List.filter_cons_of_pos h]
      rfl
    | false =>
      rw [List.find?_cons_of_neg t (by simp [h]), List.filter_cons_of_neg (by simp [h]), ih]

theorem selectProvider_eq_filter (ip : InjectedProvider) (p0 : ProviderEntry)
    (ps : List ProviderEntry) (h : ip.providers = some (p0 :: ps)) :
    selectProvider ip = (((p0 :: ps).filter (fun q => q.isClover)).head?).getD p0 := by
  unfold selectProvider
  rw [h]
  show (List.find? (fun q => q.isClover) (p0 :: ps)).getD p0 = _
  rw [find_eq_filter_head]

/-- Claim C3: when the raw provider exposes a non-empty providers list,
    selection returns the first entry whose isClover flag is set when one
    exists (formalized: the head of the flagged subsequence), otherwise
    the first entry of the list; the result is deterministic, and, in the
    only case its first clause leaves open to reordering (a flagged entry
    exists), it depends only on the flagged subsequence, hence not on the
    order or content of the non-matching entries. -/
theorem selectProvider_spec :
    ∀ (ip : InjectedProvider) (l : List ProviderEntry),
      ip.providers = some l → l ≠ [] →
      ((l.filter (fun q => q.isClover)).head? = none →
        l.head? = some (selectProvider ip)) ∧
      ((l.filter (fun q => q.isClover)) ≠ [] →
        (l.filter (fun q => q.isClover)).head? = some (selectProvider ip)) ∧
      (∀ (ip2 : InjectedProvider) (l2 : List ProviderEntry),
        ip2.providers = some l2 → l2 ≠ [] →
        l.filter (fun q => q.isClover) = l2.filter (fun q => q.isClover) →
        l.filter (fun q => q.isClover) ≠ [] →
        selectProvider ip = selectProvider ip2) := by
  intro ip l hp hne
  obtain ⟨p0, ps, rfl⟩ := List.exists_cons_of_ne_nil hne
  have hsel := selectProvider_eq_filter ip p0 ps hp
  refine ⟨?_, ?_, ?_⟩
  · intro hnone
    rw [hsel, hnone]
    rfl
  · intro hfne
    obtain ⟨a, t, hfil⟩ := List.exists_cons_of_ne_nil hfne
    rw [hsel, hfil]
    rfl
  · intro ip2 l2 hp2 hne2 heq hfne
    obtain ⟨q0, qs, rfl⟩ := List.exists_cons_of_ne_nil hne2
    have hsel2 := selectProvider_eq_filter ip2 q0 qs hp2
    obtain ⟨a, t, hfil⟩ := List.exists_cons_of_ne_nil hfne
    rw [hsel, hsel2, hfil, ← heq, hfil]
    rfl

/-- Claim C3 witness: a two-entry list with the flag on the second entry
    selects the flagged entry; a flagless list selects its first entry;
    two lists sharing the flagged subsequence select the same entry. -/
theorem selectProvider_spec_witness :
    ([entPlainA, entFlag].filter (fun q => q.isClover)).head? =
      some (selectProvider { base := entPlainB, providers := some [entPlainA, entFlag] }) ∧
    [entPlainA, entPlainB].head? =
      some (selectProvider { base := entFlag, providers := some [entPlainA, entPlainB] }) ∧
    selectProvider { base := entPlainB, providers := some [entPlainA, entFlag] } =
      selectProvider { base := entPlainB, providers := some [entFlag, entPlainA] } := by
  refine ⟨?_, ?_, ?_⟩
  · exact (selectProvider_spec _ [entPlainA, entFlag] rfl (by decide)).2.1 (by decide)
  · exact (selectProvider_spec _ [entPlainA, entPlainB] rfl (by decide)).1 (by decide)
  · exact (selectProvider_spec _ [entPlainA, entFlag] rfl (by decide)).2.2
      _ [entFlag, entPlainA] rfl (by decide) (by decide) (by decide)

/-- Claim C7: the handler registered for accountsChanged resets host state
    on an empty payload (and performs nothing else, in particular no
    update with an empty accounts list), and updates host state with the
    delivered accounts on a non-empty payload; the accountsChanged event
    is indeed bound to this handler. -/
theorem accountsChanged_handler_spec :
    ∀ l : List String,
      (l = [] →
        runHandler HandlerId.hAccountsChanged (EventPayload.accountList l) =
          [Effect.resetState]) ∧
      (l ≠ [] →
        runHandler HandlerId.hAccountsChanged (EventPayload.accountList l) =
          [Effect.update none (some l)]) ∧
      (("accountsChanged", HandlerId.hAccountsChanged) ∈ registeredBindings) := by
  intro l
  refine ⟨?_, ?_, by decide⟩
  · intro h
    subst h
    rfl
  · intro h
    match l, h with
    | a :: t, _ => simp [runHandler]

/-- Claim C7 witness: the handler at the empty payload and at a singleton
    payload. -/
theorem accountsChanged_handler_spec_witness :
    runHandler HandlerId.hAccountsChanged (EventPayload.accountList []) =
      [Effect.resetState] ∧
    runHandler HandlerId.hAccountsChanged (EventPayload.accountList [addrW]) =
      [Effect.update none (some [addrW])] :=
  ⟨(accountsChanged_handler_spec []).1 rfl,
   (accountsChanged_handler_spec [addrW]).2.1 (by decide)⟩

/-- Claim C9: deactivate unregisters exactly the four handlers registered
    on the selected provider during initialization, pairing each event
    name with the identical handler reference that was registered, so no
    listener is leaked.  The registration effects are those emitted by
    isomorphicInit when a wallet is detected on a fresh instance; the
    deactivate operation itself is modelled from the spec since it is not
    part of src/src/index.ts. -/
theorem deactivate_mirrors_subscriptions :
    ∀ (env : ConnEnv) (st : ConnState) (ip : InjectedProvider),
      st.eagerConnection = false → env.clover = some ip →
      ((isomorphicInit env st).2.map toRemoval = deactivate) ∧
      (∀ ev h, Effect.subscribe ev h ∈ (isomorphicInit env st).2 ↔
          Effect.removeListener ev h ∈ deactivate) := by
  intro env st ip h1 h2
  have ht : (isomorphicInit env st).2 = subscribeEffects := by
    simp [isomorphicInit, h1, h2]
  rw [ht]
  constructor
  · decide
  · intro ev h
    simp [subscribeEffects, deactivate, registeredBindings, toRemoval]

/-- Claim C9 witness: the mirror property at a concrete environment and
    fresh state. -/
theorem deactivate_mirrors_subscriptions_witness :
    (isomorphicInit envPresent stFresh).2.map toRemoval = deactivate :=
  (deactivate_mirrors_subscriptions envPresent stFresh ipW rfl rfl).1

theorem runStrats_eq {α : Type} (u : Option α → Option α) :
    ∀ (ss : List (QueryProvider → Option α)) (p : QueryProvider),
      runStrats u ss p = (ss.filterMap (fun s => u (s p))).head? := by
  intro ss p
  induction ss with
  | nil => rfl
  | cons s rest ih =>
    cases h : u (s p) with
    | none => simp [runStrats, List.filterMap_cons, h, ih]
    | some v => simp [runStrats, List.filterMap_cons, h]

/-- Claim C5: getChainId and getAccount evaluate their fixed strategy
    lists in order and return the first usable value (formalized: the
    head of the usable outcomes in strategy order, the account operation
    then taking the first returned address); a failing strategy is simply
    skipped in favour of the rest of the chain; exhausting every strategy
    yields none; and the operations are total functions whose only
    throwing path is the provider-not-installed precondition.  The query
    operations are modelled from the spec since they are not part of
    src/src/index.ts. -/
theorem query_fallback_first_usable :
    ∀ p : QueryProvider,
      (getChainId p = (chainIdStrategies.filterMap (fun s => usableStr (s p))).head?) ∧
      (getAccount p =
        ((accountStrategies.filterMap (fun s => usableAccounts (s p))).head?.bind
          (fun l => l.head?))) ∧
      ((∀ s ∈ chainIdStrategies, usableStr (s p) = none) → getChainId p = none) ∧
      ((∀ s ∈ accountStrategies, usableAccounts (s p) = none) → getAccount p = none) ∧
      (∀ (rest : List (QueryProvider → Option String)) (s : QueryProvider → Option String),
        usableStr (s p) = none →
        runStrats usableStr (s :: rest) p = runStrats usableStr rest p) ∧
      (getChainIdOp none = Except.error () ∧ getAccountOp none = Except.error () ∧
        getChainIdOp (some p) = Except.ok (getChainId p) ∧
        getAccountOp (some p) = Except.ok (getAccount p)) := by
  intro p
  have hc : getChainId p = (chainIdStrategies.filterMap (fun s => usableStr (s p))).head? :=
    runStrats_eq usableStr chainIdStrategies p
  have ha : getAccount p =
      ((accountStrategies.filterMap (fun s => usableAccounts (s p))).head?.bind
        (fun l => l.head?)) := by
    show (match runStrats usableAccounts accountStrategies p with
      | some l => l.head?
      | none => none) = _
    rw [runStrats_eq]
    cases (accountStrategies.filterMap (fun s => usableAccounts (s p))).head? <;> rfl
  refine ⟨hc, ha, ?_, ?_, ?_, rfl, rfl, rfl, rfl⟩
  · intro hall
    rw [hc, List.filterMap_eq_nil_iff.mpr hall]
    rfl
  · intro hall
    rw [ha, List.filterMap_eq_nil_iff.mpr hall]
    rfl
  · intro rest s h
    simp [runStrats, h]

/-- Claim C5 witness: the fallback characterization at a concrete probe
    surface, and a concrete skipped failing strategy. -/
theorem query_fallback_first_usable_witness :
    getChainId qpW = (chainIdStrategies.filterMap (fun s => usableStr (s qpW))).head? ∧
    runStrats usableStr ((fun p => p.ethChainIdResult) :: []) qpW =
      runStrats usableStr [] qpW :=
  ⟨(query_fallback_first_usable qpW).1,
   (query_fallback_first_usable qpW).2.2.2.2.1 [] (fun p => p.ethChainIdResult) rfl⟩

/-
  Lemmas about initialization and the request pair.
-/

theorem isomorphicInit_of_eager (env : ConnEnv) (st : ConnState)
    (h : st.eagerConnection = true) : isomorphicInit env st = (st, []) := by
  simp [isomorphicInit, h]

theorem isomorphicInit_eager (env : ConnEnv) (st : ConnState) :
    (isomorphicInit env st).1.eagerConnection = true := by
  cases h : st.eagerConnection with
  | true => simp [isomorphicInit, h]
  | false => cases hc : env.clover <;> simp [isomorphicInit, h, hc]

theorem isomorphicInit_counter (env : ConnEnv) (st : ConnState) :
    (isomorphicInit env st).1.counter = st.counter := by
  cases h : st.eagerConnection with
  | true => simp [isomorphicInit, h]
  | false => cases hc : env.clover <;> simp [isomorphicInit, h, hc]

theorem isomorphicInit_trace_cases (env : ConnEnv) (st : ConnState) :
    (isomorphicInit env st).2 = [] ∨ (isomorphicInit env st).2 = subscribeEffects := by
  cases h : st.eagerConnection with
  | true => exact Or.inl (by simp [isomorphicInit, h])
  | false =>
    cases hc : env.clover with
    | none => exact Or.inl (by simp [isomorphicInit, h, hc])
    | some ip => exact Or.inr (by simp [isomorphicInit, h, hc])

theorem subscribeEffects_mem (e : Effect) (he : e ∈ subscribeEffects) :
    e.isSubscribe = true ∧ e.isStartActivation = false ∧ e.isResetState = false ∧
      e.isUpdate = false ∧ e.isRequest = false := by
  simp only [subscribeEffects, registeredBindings, List.map_cons, List.map_nil,
    List.mem_cons, List.not_mem_nil, or_false] at he
  rcases he with rfl | rfl | rfl | rfl <;> exact ⟨rfl, rfl, rfl, rfl, rfl⟩

theorem isomorphicInit_trace_mem (env : ConnEnv) (st : ConnState) (e : Effect)
    (he : e ∈ (isomorphicInit env st).2) :
    e.isSubscribe = true ∧ e.isStartActivation = false ∧ e.isResetState = false ∧
      e.isUpdate = false ∧ e.isRequest = false := by
  rcases isomorphicInit_trace_cases env st with h | h
  · rw [h] at he
    exact absurd he (List.not_mem_nil e)
  · rw [h] at he
    exact subscribeEffects_mem e he

theorem requestPair_trace (env : ConnEnv) (st : ConnState) (r : Request) :
    (requestPair env st r).2.1 = [Effect.request Request.ethChainId, Effect.request r] := by
  simp only [requestPair]
  cases env.respond st.counter Request.ethChainId <;>
    cases env.respond (st.counter + 1) r <;> rfl

theorem requestPair_state (env : ConnEnv) (st : ConnState) (r : Request) :
    (requestPair env st r).1 = { st with counter := st.counter + 2 } := by
  simp only [requestPair]
  cases env.respond st.counter Request.ethChainId <;>
    cases env.respond (st.counter + 1) r <;> rfl

theorem requestPair_ok (env : ConnEnv) (st : ConnState) (r : Request)
    (v1 v2 : RpcResult)
    (h1 : env.respond st.counter Request.ethChainId = Except.ok v1)
    (h2 : env.respond (st.counter + 1) r = Except.ok v2) :
    (requestPair env st r).2.2 = Except.ok (v1, v2) := by
  simp [requestPair, h1, h2]

theorem requestPair_err1 (env : ConnEnv) (st : ConnState) (r : Request)
    (e : RpcError)
    (h1 : env.respond st.counter Request.ethChainId = Except.error e) :
    (requestPair env st r).2.2 = Except.error e := by
  simp [requestPair, h1]

theorem requestPair_err2 (env : ConnEnv) (st : ConnState) (r : Request)
    (v1 : RpcResult) (e : RpcError)
    (h1 : env.respond st.counter Request.ethChainId = Except.ok v1)
    (h2 : env.respond (st.counter + 1) r = Except.error e) :
    (requestPair env st r).2.2 = Except.error e := by
  simp [requestPair, h1, h2]

/-- Claim C8: with the provider present, when the eth_requestAccounts
    request rejects with the code-4001 user-rejection error (the chain-id
    request of the same Promise.all having fulfilled), activate rejects
    with exactly that error, and its trace consists of the two requests
    only: no update, no resetState, no startActivation, so host state is
    left untouched and the error is neither retried nor swallowed. -/
theorem activate_user_rejected :
    ∀ (env : ConnEnv) (st : ConnState) (pe : ProviderEntry) (v1 : RpcResult)
      (e : RpcError) (argOpt : Option ActivateArg) (fuel : Nat),
      st.eagerConnection = true →
      st.provider = some pe →
      env.respond st.counter Request.ethChainId = Except.ok v1 →
      env.respond (st.counter + 1) Request.ethRequestAccounts = Except.error e →
      e.code = 4001 →
      activate env (fuel + 1) st argOpt =
        ({ st with counter := st.counter + 2 },
         [Effect.request Request.ethChainId, Effect.request Request.ethRequestAccounts],
         Except.error (ActivateError.rpc e)) := by
  intro env st pe v1 e argOpt fuel hE hP h1 h2 hcode
  have hIso := isomorphicInit_of_eager env st hE
  have hq := requestPair_err2 env st Request.ethRequestAccounts v1 e h1 h2
  have ht := requestPair_trace env st Request.ethRequestAccounts
  have hs := requestPair_state env st Request.ethRequestAccounts
  simp [activate, hIso, hP, hq, ht, hs]

/-- Claim C8 witness: the rejection outcome at a concrete environment. -/
theorem activate_user_rejected_witness :
    activate envReject 1 stReady none =
      ({ stReady with counter := stReady.counter + 2 },
       [Effect.request Request.ethChainId, Effect.request Request.ethRequestAccounts],
       Except.error (ActivateError.rpc eUser)) :=
  activate_user_rejected envReject stReady entFlag (RpcResult.str hex1) eUser none 0
    rfl rfl rfl rfl rfl

/-- Claim C2: with the provider present, a desired chain differing from
    the received one, and the argument a bare numeric id, a
    wallet_switchEthereumChain rejection with code 4902 makes activate
    reject with exactly that error; the trace holds the two initial
    requests and the switch request only, so no wallet_addEthereumChain
    request is ever issued. -/
theorem activate_bare_id_no_add :
    ∀ (env : ConnEnv) (st : ConnState) (pe : ProviderEntry) (c : String)
      (accts : List String) (e : RpcError) (n : Nat) (fuel : Nat),
      st.eagerConnection = true →
      st.provider = some pe →
      env.respond st.counter Request.ethChainId = Except.ok (RpcResult.str c) →
      env.respond (st.counter + 1) Request.ethRequestAccounts =
        Except.ok (RpcResult.accounts accts) →
      jsFalsy (some n) = false →
      jsEq (parseChainId c) (some n) = false →
      env.respond (st.counter + 2)
        (Request.walletSwitchEthereumChain (toHexString n)) = Except.error e →
      e.code = 4902 →
      activate env (fuel + 1) st (some (ActivateArg.id n)) =
        ({ st with counter := st.counter + 3 },
         [Effect.request Request.ethChainId, Effect.request Request.ethRequestAccounts,
          Effect.request (Request.walletSwitchEthereumChain (toHexString n))],
         Except.error (ActivateError.rpc e)) ∧
      addRequests (activate env (fuel + 1) st (some (ActivateArg.id n))).2.1 = [] := by
  intro env st pe c accts e n fuel hE hP h1 h2 hf hne h3 hcode
  have hIso := isomorphicInit_of_eager env st hE
  have hq := requestPair_ok env st Request.ethRequestAccounts
    (RpcResult.str c) (RpcResult.accounts accts) h1 h2
  have ht := requestPair_trace env st Request.ethRequestAccounts
  have hs := requestPair_state env st Request.ethRequestAccounts
  have hmain : activate env (fuel + 1) st (some (ActivateArg.id n)) =
      ({ st with counter := st.counter + 3 },
       [Effect.request Request.ethChainId, Effect.request Request.ethRequestAccounts,
        Effect.request (Request.walletSwitchEthereumChain (toHexString n))],
       Except.error (ActivateError.rpc e)) := by
    simp [activate, hIso, hP, hq, ht, hs, RpcResult.asString, RpcResult.asAccounts,
      desiredChainIdOf, hf, hne, argIsNumber, h3, Nat.add_assoc]
  refine ⟨hmain, ?_⟩
  rw [hmain]
  rfl

/-- Claim C2 witness: the fatal no-add outcome at a concrete environment
    where the bare desired id is 5 and the wallet is on chain 1. -/
theorem activate_bare_id_no_add_witness :
    activate envSwitchFail 1 stReady (some (ActivateArg.id 5)) =
      ({ stReady with counter := stReady.counter + 3 },
       [Effect.request Request.ethChainId, Effect.request Request.ethRequestAccounts,
        Effect.request (Request.walletSwitchEthereumChain (toHexString 5))],
       Except.error (ActivateError.rpc eChain)) ∧
    addRequests (activate envSwitchFail 1 stReady (some (ActivateArg.id 5))).2.1 = [] :=
  activate_bare_id_no_add envSwitchFail stReady entFlag hex1 [addrW] eChain 5 0
    rfl rfl rfl rfl (by decide) (by decide) rfl rfl

theorem addRequests_append (a b : List Effect) :
    addRequests (a ++ b) = addRequests a ++ addRequests b := by
  simp [addRequests, List.filterMap_append]

theorem addRequests_iso (env : ConnEnv) (st : ConnState) :
    addRequests (isomorphicInit env st).2 = [] := by
  rcases isomorphicInit_trace_cases env st with h | h <;> rw [h] <;> rfl

theorem activate_id_no_add (env : ConnEnv) :
    ∀ (fuel : Nat) (st : ConnState) (n : Nat),
      addRequests (activate env fuel st (some (ActivateArg.id n))).2.1 = [] := by
  intro fuel
  induction fuel with
  | zero => intro st n; rfl
  | succ fuel ih =>
    intro st n
    simp only [activate]
    rcases hprov : (isomorphicInit env st).1.provider with _ | pe
    · simp only [hprov]
      exact addRequests_iso env st
    · simp only [hprov]
      rcases hq : (requestPair env (isomorphicInit env st).1 Request.ethRequestAccounts).2.2
        with e | vp
      · simp only [hq]
        rw [addRequests_append, addRequests_iso, requestPair_trace]
        rfl
      · simp only [hq, desiredChainIdOf]
        cases hcond : (jsFalsy (some n) ||
            jsEq (parseChainId (RpcResult.asString vp.1)) (some n)) with
        | true =>
          rw [if_pos rfl]
          rw [addRequests_append, addRequests_append, addRequests_iso, requestPair_trace]
          rfl
        | false =>
          rw [if_neg Bool.false_ne_true]
          rcases hsw : env.respond
              (requestPair env (isomorphicInit env st).1 Request.ethRequestAccounts).1.counter
              (Request.walletSwitchEthereumChain (toHexString ((some n).getD 0)))
            with e | v
          · simp only [hsw]
            rw [if_neg (by simp [argIsNumber])]
            rw [addRequests_append, addRequests_append, addRequests_iso, requestPair_trace]
            rfl
          · simp only [hsw]
            rw [addRequests_append, addRequests_append, addRequests_append,
              addRequests_iso, requestPair_trace, ih]
            rfl

theorem activate_trace_head (env : ConnEnv) (fuel : Nat) (st : ConnState)
    (pe : ProviderEntry) (arg : Option ActivateArg)
    (hE : st.eagerConnection = true) (hP : st.provider = some pe) :
    ∃ t, (activate env (fuel + 1) st arg).2.1 =
      Effect.request Request.ethChainId :: Effect.request Request.ethRequestAccounts :: t := by
  have hIso := isomorphicInit_of_eager env st hE
  have ht := requestPair_trace env st Request.ethRequestAccounts
  simp only [activate, hIso, hP, ht]
  rcases hq : (requestPair env st Request.ethRequestAccounts).2.2 with e | vp
  · simp only [hq, List.nil_append]
    exact ⟨_, rfl⟩
  · simp only [hq]
    cases hcond : (jsFalsy (desiredChainIdOf arg) ||
        jsEq (parseChainId (RpcResult.asString vp.1)) (desiredChainIdOf arg)) with
    | true =>
      rw [if_pos rfl]
      simp only [List.nil_append, List.cons_append, List.singleton_append, List.append_nil]
      exact ⟨_, rfl⟩
    | false =>
      rw [if_neg Bool.false_ne_true]
      rcases hsw : env.respond (requestPair env st Request.ethRequestAccounts).1.counter
          (Request.walletSwitchEthereumChain (toHexString ((desiredChainIdOf arg).getD 0)))
        with e | v
      · simp only [hsw]
        cases hcode : (e.code == 4902 && !(argIsNumber arg)) with
        | true =>
          rw [if_pos rfl]
          rcases hadd : env.respond
              ({ (requestPair env st Request.ethRequestAccounts).1 with
                  counter := (requestPair env st Request.ethRequestAccounts).1.counter + 1 }).counter
              (Request.walletAddEthereumChain
                { spreadSource := argSpread arg,
                  chainId := toHexString ((desiredChainIdOf arg).getD 0) })
            with e2 | v2
          · simp only [hadd, List.nil_append, List.cons_append, List.singleton_append,
              List.append_nil]
            exact ⟨_, rfl⟩
          · simp only [hadd, List.nil_append, List.cons_append, List.singleton_append,
              List.append_nil]
            exact ⟨_, rfl⟩
        | false =>
          rw [if_neg Bool.false_ne_true]
          simp only [List.nil_append, List.cons_append, List.singleton_append, List.append_nil]
          exact ⟨_, rfl⟩
      · simp only [hsw, List.nil_append, List.cons_append, List.singleton_append,
          List.append_nil]
        exact ⟨_, rfl⟩

theorem addRequests_cons_chain (l : List Effect) :
    addRequests (Effect.request Request.ethChainId :: l) = addRequests l := rfl

theorem addRequests_cons_acc (l : List Effect) :
    addRequests (Effect.request Request.ethRequestAccounts :: l) = addRequests l := rfl

theorem addRequests_cons_switch (s : String) (l : List Effect) :
    addRequests (Effect.request (Request.walletSwitchEthereumChain s) :: l) =
      addRequests l := rfl

theorem addRequests_cons_add (r : AddChainRequest) (l : List Effect) :
    addRequests (Effect.request (Request.walletAddEthereumChain r) :: l) =
      r :: addRequests l := rfl

/-- Claim C1: with the provider present, a desired chain differing from
    the received one, full add-chain parameters supplied, and the switch
    request rejected with code 4902: exactly one wallet_addEthereumChain
    request appears in the whole run, and its params are the caller
    parameters spread with chainId overridden by the hex encoding of the
    desired id; when that add request itself rejects, activate rejects
    with exactly the add error; when it fulfils, the add request is
    immediately followed by a renewed eth_chainId verification (the
    re-verifying recursion with the bare desired id, which switches again
    only while the reported chain still differs). -/
theorem activate_add_chain_protocol :
    ∀ (env : ConnEnv) (st : ConnState) (pe : ProviderEntry)
      (p : AddEthereumChainParameter) (c : String) (accts : List String)
      (e : RpcError) (fuel : Nat),
      st.eagerConnection = true →
      st.provider = some pe →
      env.respond st.counter Request.ethChainId = Except.ok (RpcResult.str c) →
      env.respond (st.counter + 1) Request.ethRequestAccounts =
        Except.ok (RpcResult.accounts accts) →
      jsFalsy (some p.chainId) = false →
      jsEq (parseChainId c) (some p.chainId) = false →
      env.respond (st.counter + 2)
        (Request.walletSwitchEthereumChain (toHexString p.chainId)) = Except.error e →
      e.code = 4902 →
      addRequests (activate env (fuel + 1 + 1) st (some (ActivateArg.params p))).2.1 =
        [{ spreadSource := some p, chainId := toHexString p.chainId }] ∧
      (∀ e2, env.respond (st.counter + 3)
          (Request.walletAddEthereumChain
            { spreadSource := some p, chainId := toHexString p.chainId }) =
          Except.error e2 →
        (activate env (fuel + 1 + 1) st (some (ActivateArg.params p))).2.2 =
          Except.error (ActivateError.rpc e2)) ∧
      (∀ v, env.respond (st.counter + 3)
          (Request.walletAddEthereumChain
            { spreadSource := some p, chainId := toHexString p.chainId }) =
          Except.ok v →
        ∃ t, (activate env (fuel + 1 + 1) st (some (ActivateArg.params p))).2.1 =
          Effect.request Request.ethChainId :: Effect.request Request.ethRequestAccounts ::
          Effect.request (Request.walletSwitchEthereumChain (toHexString p.chainId)) ::
          Effect.request (Request.walletAddEthereumChain
            { spreadSource := some p, chainId := toHexString p.chainId }) ::
          Effect.request Request.ethChainId :: t) := by
  intro env st pe p c accts e fuel hE hP h1 h2 hf hne h3 hcode
  have hIso := isomorphicInit_of_eager env st hE
  have hq := requestPair_ok env st Request.ethRequestAccounts
    (RpcResult.str c) (RpcResult.accounts accts) h1 h2
  have ht := requestPair_trace env st Request.ethRequestAccounts
  have hs := requestPair_state env st Request.ethRequestAccounts
  rcases hadd : env.respond (st.counter + 3)
      (Request.walletAddEthereumChain
        { spreadSource := some p, chainId := toHexString p.chainId })
    with e2 | v2
  · have hval : activate env (fuel + 1 + 1) st (some (ActivateArg.params p)) =
        ({ st with counter := st.counter + 4 },
         [Effect.request Request.ethChainId, Effect.request Request.ethRequestAccounts,
          Effect.request (Request.walletSwitchEthereumChain (toHexString p.chainId)),
          Effect.request (Request.walletAddEthereumChain
            { spreadSource := some p, chainId := toHexString p.chainId })],
         Except.error (ActivateError.rpc e2)) := by
      simp [activate, hIso, hP, hq, ht, hs, RpcResult.asString, RpcResult.asAccounts,
        desiredChainIdOf, hf, hne, argIsNumber, argSpread, hcode, h3, hadd, Nat.add_assoc]
    refine ⟨?_, ?_, ?_⟩
    · rw [hval]
      rfl
    · intro e2x hx
      injection hx with hx
      rw [hval, hx]
    · intro v hx
      exact absurd hx (by simp)
  · have hval : activate env (fuel + 1 + 1) st (some (ActivateArg.params p)) =
        ((activate env (fuel + 1) { st with counter := st.counter + 4 }
            (some (ActivateArg.id p.chainId))).1,
         Effect.request Request.ethChainId :: Effect.request Request.ethRequestAccounts ::
           Effect.request (Request.walletSwitchEthereumChain (toHexString p.chainId)) ::
           Effect.request (Request.walletAddEthereumChain
             { spreadSource := some p, chainId := toHexString p.chainId }) ::
           (activate env (fuel + 1) { st with counter := st.counter + 4 }
             (some (ActivateArg.id p.chainId))).2.1,
         (activate env (fuel + 1) { st with counter := st.counter + 4 }
           (some (ActivateArg.id p.chainId))).2.2) := by
      simp [activate, hIso, hP, hq, ht, hs, RpcResult.asString, RpcResult.asAccounts,
        desiredChainIdOf, hf, hne, argIsNumber, argSpread, hcode, h3, hadd, Nat.add_assoc]
    refine ⟨?_, ?_, ?_⟩
    · rw [hval, addRequests_cons_chain, addRequests_cons_acc, addRequests_cons_switch,
        addRequests_cons_add, activate_id_no_add]
    · intro e2x hx
      exact absurd hx (by simp)
    · intro v hx
      obtain ⟨t, htr⟩ := activate_trace_head env fuel
        { st with counter := st.counter + 4 } pe (some (ActivateArg.id p.chainId)) hE hP
      exact ⟨Effect.request Request.ethRequestAccounts :: t, by rw [hval, htr]⟩

/-- Claim C1 witness: the single merged add request and the re-verifying
    request after it, at a concrete environment. -/
theorem activate_add_chain_protocol_witness :
    addRequests (activate envAddOk 2 stReady (some (ActivateArg.params p5))).2.1 =
      [{ spreadSource := some p5, chainId := toHexString p5.chainId }] ∧
    (∃ t, (activate envAddOk 2 stReady (some (ActivateArg.params p5))).2.1 =
      Effect.request Request.ethChainId :: Effect.request Request.ethRequestAccounts ::
      Effect.request (Request.walletSwitchEthereumChain (toHexString p5.chainId)) ::
      Effect.request (Request.walletAddEthereumChain
        { spreadSource := some p5, chainId := toHexString p5.chainId }) ::
      Effect.request Request.ethChainId :: t) := by
  have h := activate_add_chain_protocol envAddOk stReady entFlag p5 hex1 [addrW] eChain 0
    rfl rfl rfl rfl (by decide) (by decide) rfl rfl
  exact ⟨h.1, h.2.2 RpcResult.nullv rfl⟩

/-- Claim C6: connectEagerly always resolves.  When the provider is
    absent at call time the trace is exactly startActivation followed by
    the cancellation callback, so host state is untouched; when a
    provider was found and the attempt fails in any way (a rejected
    request or an empty accounts list), the run ends with the debug log
    and resetState, and no update is ever performed on a failing run. -/
theorem connectEagerly_never_rejects :
    ∀ (env : ConnEnv) (st : ConnState),
      ((connectEagerly env st).2.2 = Except.ok ()) ∧
      (st.provider = none → env.clover = none →
        (connectEagerly env st).2.1 =
          [Effect.startActivation, Effect.cancelActivation]) ∧
      (∀ pe, (isomorphicInit env st).1.provider = some pe →
        eagerSuccessB (env.respond st.counter Request.ethChainId)
          (env.respond (st.counter + 1) Request.ethAccounts) = false →
        (connectEagerly env st).2.1 =
          Effect.startActivation :: (isomorphicInit env st).2 ++
            [Effect.request Request.ethChainId, Effect.request Request.ethAccounts,
             Effect.consoleDebug, Effect.resetState] ∧
        (∀ c a, Effect.update c a ∉ (connectEagerly env st).2.1)) := by
  intro env st
  refine ⟨?_, ?_, ?_⟩
  · rcases hprov : (isomorphicInit env st).1.provider with _ | pe
    · simp [connectEagerly, hprov]
    · rcases hq : (requestPair env (isomorphicInit env st).1 Request.ethAccounts).2.2
        with e | vp
      · simp [connectEagerly, hprov, hq]
      · cases hlen : ((RpcResult.asAccounts vp.2).length != 0) <;>
          simp [connectEagerly, hprov, hq, hlen]
  · intro hpn hcn
    cases hE : st.eagerConnection with
    | true =>
      have hiso := isomorphicInit_of_eager env st hE
      simp [connectEagerly, hiso, hpn]
    | false =>
      have hiso : isomorphicInit env st = ({ st with eagerConnection := true }, []) := by
        simp [isomorphicInit, hE, hcn]
      simp [connectEagerly, hiso, hpn]
  · intro pe hprov hfail
    have hcnt : (isomorphicInit env st).1.counter = st.counter :=
      isomorphicInit_counter env st
    have heq : (connectEagerly env st).2.1 =
        Effect.startActivation :: (isomorphicInit env st).2 ++
          [Effect.request Request.ethChainId, Effect.request Request.ethAccounts,
           Effect.consoleDebug, Effect.resetState] := by
      rcases hr1 : env.respond st.counter Request.ethChainId with e | v1
      · have hqq := requestPair_err1 env (isomorphicInit env st).1 Request.ethAccounts e
          (by rw [hcnt]; exact hr1)
        simp [connectEagerly, hprov, hqq, requestPair_trace]
      · rcases hr2 : env.respond (st.counter + 1) Request.ethAccounts with e | v2
        · have hqq := requestPair_err2 env (isomorphicInit env st).1 Request.ethAccounts v1 e
            (by rw [hcnt]; exact hr1) (by rw [hcnt]; exact hr2)
          simp [connectEagerly, hprov, hqq, requestPair_trace]
        · have hqq := requestPair_ok env (isomorphicInit env st).1 Request.ethAccounts v1 v2
            (by rw [hcnt]; exact hr1) (by rw [hcnt]; exact hr2)
          rw [hr1, hr2] at hfail
          simp only [eagerSuccessB] at hfail
          simp [connectEagerly, hprov, hqq, requestPair_trace, hfail]
    refine ⟨heq, ?_⟩
    intro c a hmem
    rw [heq] at hmem
    rcases List.mem_cons.mp hmem with h | h
    · exact absurd h (by simp)
    · rcases List.mem_append.mp h with h | h
      · have hflag := (isomorphicInit_trace_mem env st _ h).2.2.2.1
        simp [Effect.isUpdate] at hflag
      · simp at h

/-- Claim C6 witness: the absent-provider trace at a concrete empty
    environment, and the reset-ending failure trace at a concrete
    environment returning no accounts. -/
theorem connectEagerly_never_rejects_witness :
    (connectEagerly envAbsent stFresh).2.2 = Except.ok () ∧
    (connectEagerly envAbsent stFresh).2.1 =
      [Effect.startActivation, Effect.cancelActivation] ∧
    (connectEagerly envReject stReady).2.1 =
      Effect.startActivation :: (isomorphicInit envReject stReady).2 ++
        [Effect.request Request.ethChainId, Effect.request Request.ethAccounts,
         Effect.consoleDebug, Effect.resetState] :=
  ⟨(connectEagerly_never_rejects envAbsent stFresh).1,
   (connectEagerly_never_rejects envAbsent stFresh).2.1 rfl rfl,
   ((connectEagerly_never_rejects envReject stReady).2.2 entFlag rfl rfl).1⟩

theorem nonupdate_third (e : Effect) (h : e.isUpdate = false)
    (r : Except ActivateError Unit) : e.isUpdate = true → r = Except.ok () :=
  fun hh => absurd hh (by rw [h]; exact Bool.false_ne_true)

theorem iso_mem_triple (env : ConnEnv) (st : ConnState)
    (res : Except ActivateError Unit) (e : Effect)
    (he : e ∈ (isomorphicInit env st).2) :
    e.isStartActivation = false ∧ e.isResetState = false ∧
      (e.isUpdate = true → res = Except.ok ()) :=
  ⟨(isomorphicInit_trace_mem env st e he).2.1,
   (isomorphicInit_trace_mem env st e he).2.2.1,
   nonupdate_third e (isomorphicInit_trace_mem env st e he).2.2.2.1 res⟩

theorem request_triple (r : Request) (res : Except ActivateError Unit) :
    (Effect.request r).isStartActivation = false ∧
      (Effect.request r).isResetState = false ∧
      ((Effect.request r).isUpdate = true → res = Except.ok ()) :=
  ⟨rfl, rfl, nonupdate_third (Effect.request r) rfl res⟩

theorem activate_no_mutation (env : ConnEnv) :
    ∀ (fuel : Nat) (st : ConnState) (arg : Option ActivateArg),
      ∀ e ∈ (activate env fuel st arg).2.1,
        e.isStartActivation = false ∧ e.isResetState = false ∧
          (e.isUpdate = true → (activate env fuel st arg).2.2 = Except.ok ()) := by
  intro fuel
  induction fuel with
  | zero =>
    intro st arg e he
    exact absurd he (List.not_mem_nil e)
  | succ fuel ih =>
    intro st arg
    rcases hprov : (isomorphicInit env st).1.provider with _ | pe
    · simp only [activate, hprov]
      intro e he
      exact iso_mem_triple env st _ e he
    · rcases hq : (requestPair env (isomorphicInit env st).1 Request.ethRequestAccounts).2.2
        with e0 | vp
      · simp only [activate, hprov, hq, requestPair_trace]
        intro e he
        rcases List.mem_append.mp he with h | h
        · exact iso_mem_triple env st _ e h
        · rcases List.mem_cons.mp h with rfl | h2
          · exact request_triple _ _
          · rcases List.mem_cons.mp h2 with rfl | h3
            · exact request_triple _ _
            · exact absurd h3 (List.not_mem_nil e)
      · simp only [activate, hprov, hq, requestPair_trace]
        cases hcond : (jsFalsy (desiredChainIdOf arg) ||
            jsEq (parseChainId (RpcResult.asString vp.1)) (desiredChainIdOf arg)) with
        | true =>
          rw [if_pos rfl]
          intro e he
          rcases List.mem_append.mp he with h | h
          · rcases List.mem_append.mp h with h1 | h1
            · exact iso_mem_triple env st _ e h1
            · rcases List.mem_cons.mp h1 with rfl | h2
              · exact request_triple _ _
              · rcases List.mem_cons.mp h2 with rfl | h3
                · exact request_triple _ _
                · exact absurd h3 (List.not_mem_nil e)
          · rcases List.mem_cons.mp h with rfl | h2
            · exact ⟨rfl, rfl, fun _ => rfl⟩
            · exact absurd h2 (List.not_mem_nil e)
        | false =>
          rw [if_neg Bool.false_ne_true]
          rcases hsw : env.respond
              (requestPair env (isomorphicInit env st).1 Request.ethRequestAccounts).1.counter
              (Request.walletSwitchEthereumChain
                (toHexString ((desiredChainIdOf arg).getD 0)))
            with e0 | v0
          · simp only [hsw]
            cases hcode : (e0.code == 4902 && !(argIsNumber arg)) with
            | true =>
              rw [if_pos rfl]
              rcases hadd : env.respond
                  ({ (requestPair env (isomorphicInit env st).1 Request.ethRequestAccounts).1 with
                      counter := (requestPair env (isomorphicInit env st).1
                        Request.ethRequestAccounts).1.counter + 1 }).counter
                  (Request.walletAddEthereumChain
                    { spreadSource := argSpread arg,
                      chainId := toHexString ((desiredChainIdOf arg).getD 0) })
                with e1 | v1
              · simp only [hadd]
                intro e he
                rcases List.mem_append.mp he with h | h
                · rcases List.mem_append.mp h with h1 | h1
                  · exact iso_mem_triple env st _ e h1
                  · rcases List.mem_cons.mp h1 with rfl | h2
                    · exact request_triple _ _
                    · rcases List.mem_cons.mp h2 with rfl | h3
                      · exact request_triple _ _
                      · exact absurd h3 (List.not_mem_nil e)
                · rcases List.mem_cons.mp h with rfl | h2
                  · exact request_triple _ _
                  · rcases List.mem_cons.mp h2 with rfl | h3
                    · exact request_triple _ _
                    · exact absurd h3 (List.not_mem_nil e)
              · simp only [hadd]
                intro e he
                rcases List.mem_append.mp he with h | h
                · rcases List.mem_append.mp h with h1 | h1
                  · rcases List.mem_append.mp h1 with h2 | h2
                    · exact iso_mem_triple env st _ e h2
                    · rcases List.mem_cons.mp h2 with rfl | h3
                      · exact request_triple _ _
                      · rcases List.mem_cons.mp h3 with rfl | h4
                        · exact request_triple _ _
                        · exact absurd h4 (List.not_mem_nil e)
                  · rcases List.mem_cons.mp h1 with rfl | h2
                    · exact request_triple _ _
                    · rcases List.mem_cons.mp h2 with rfl | h3
                      · exact request_triple _ _
                      · exact absurd h3 (List.not_mem_nil e)
                · exact ⟨(ih _ _ e h).1, (ih _ _ e h).2.1, (ih _ _ e h).2.2⟩
            | false =>
              rw [if_neg Bool.false_ne_true]
              intro e he
              rcases List.mem_append.mp he with h | h
              · rcases List.mem_append.mp h with h1 | h1
                · exact iso_mem_triple env st _ e h1
                · rcases List.mem_cons.mp h1 with rfl | h2
                  · exact request_triple _ _
                  · rcases List.mem_cons.mp h2 with rfl | h3
                    · exact request_triple _ _
                    · exact absurd h3 (List.not_mem_nil e)
              · rcases List.mem_cons.mp h with rfl | h2
                · exact request_triple _ _
                · exact absurd h2 (List.not_mem_nil e)
          · simp only [hsw]
            intro e he
            rcases List.mem_append.mp he with h | h
            · rcases List.mem_append.mp h with h1 | h1
              · rcases List.mem_append.mp h1 with h2 | h2
                · exact iso_mem_triple env st _ e h2
                · rcases List.mem_cons.mp h2 with rfl | h3
                  · exact request_triple _ _
                  · rcases List.mem_cons.mp h3 with rfl | h4
                    · exact request_triple _ _
                    · exact absurd h4 (List.not_mem_nil e)
              · rcases List.mem_cons.mp h1 with rfl | h2
                · exact request_triple _ _
                · exact absurd h2 (List.not_mem_nil e)
            · exact ⟨(ih _ _ e h).1, (ih _ _ e h).2.1, (ih _ _ e h).2.2⟩

/-- Claim C10: activate is atomic with respect to host state on failure:
    it never emits startActivation or resetState on any run, a run whose
    promise rejects (for any reason: missing wallet, authorization
    rejection, switch or add failure) has performed no update, and an
    update in the trace occurs only when the whole activation settled
    successfully. -/
theorem activate_atomic_on_failure :
    ∀ (env : ConnEnv) (fuel : Nat) (st : ConnState) (arg : Option ActivateArg),
      (∀ e ∈ (activate env fuel st arg).2.1,
        e.isStartActivation = false ∧ e.isResetState = false) ∧
      ((activate env fuel st arg).2.2 ≠ Except.ok () →
        ∀ e ∈ (activate env fuel st arg).2.1, e.isUpdate = false) ∧
      ((∃ e ∈ (activate env fuel st arg).2.1, e.isUpdate = true) →
        (activate env fuel st arg).2.2 = Except.ok ()) := by
  intro env fuel st arg
  refine ⟨?_, ?_, ?_⟩
  · intro e he
    exact ⟨(activate_no_mutation env fuel st arg e he).1,
           (activate_no_mutation env fuel st arg e he).2.1⟩
  · intro hres e he
    cases hu : e.isUpdate with
    | false => rfl
    | true => exact absurd ((activate_no_mutation env fuel st arg e he).2.2 hu) hres
  · rintro ⟨e, he, hu⟩
    exact (activate_no_mutation env fuel st arg e he).2.2 hu

/-- Claim C10 witness: on a concrete failing run (user rejection) the
    trace carries no startActivation, resetState or update. -/
theorem activate_atomic_on_failure_witness :
    ((activate envReject 1 stReady none).2.1.all
      (fun e => !e.isStartActivation && !e.isResetState && !e.isUpdate)) = true := by
  have h := activate_atomic_on_failure envReject 1 stReady none
  rw [List.all_eq_true]
  intro e he
  have h1 := h.1 e he
  have h2 := h.2.1 (by decide) e he
  simp [h1.1, h1.2, h2]

theorem activate_no_subscribe (env : ConnEnv) :
    ∀ (fuel : Nat) (st : ConnState) (arg : Option ActivateArg),
      st.eagerConnection = true →
      ∀ e ∈ (activate env fuel st arg).2.1, e.isSubscribe = false := by
  intro fuel
  induction fuel with
  | zero =>
    intro st arg _ e he
    exact absurd he (List.not_mem_nil e)
  | succ fuel ih =>
    intro st arg hE
    have hIso := isomorphicInit_of_eager env st hE
    have ht := requestPair_trace env st Request.ethRequestAccounts
    have hs := requestPair_state env st Request.ethRequestAccounts
    rcases hprov : st.provider with _ | pe
    · simp only [activate, hIso, hprov]
      intro e he
      exact absurd he (List.not_mem_nil e)
    · rcases hq : (requestPair env st Request.ethRequestAccounts).2.2 with e0 | vp
      · simp only [activate, hIso, hprov, hq, ht, hs, List.nil_append]
        intro e he
        rcases List.mem_cons.mp he with rfl | h2
        · rfl
        · rcases List.mem_cons.mp h2 with rfl | h3
          · rfl
          · exact absurd h3 (List.not_mem_nil e)
      · simp only [activate, hIso, hprov, hq, ht, hs, List.nil_append]
        cases hcond : (jsFalsy (desiredChainIdOf arg) ||
            jsEq (parseChainId (RpcResult.asString vp.1)) (desiredChainIdOf arg)) with
        | true =>
          rw [if_pos rfl]
          intro e he
          rcases List.mem_append.mp he with h | h
          · rcases List.mem_cons.mp h with rfl | h2
            · rfl
            · rcases List.mem_cons.mp h2 with rfl | h3
              · rfl
              · exact absurd h3 (List.not_mem_nil e)
          · rcases List.mem_cons.mp h with rfl | h2
            · rfl
            · exact absurd h2 (List.not_mem_nil e)
        | false =>
          rw [if_neg Bool.false_ne_true]
          rcases hsw : env.respond (st.counter + 2)
              (Request.walletSwitchEthereumChain
                (toHexString ((desiredChainIdOf arg).getD 0)))
            with e0 | v0
          · simp only [hsw]
            cases hcode : (e0.code == 4902 && !(argIsNumber arg)) with
            | true =>
              rw [if_pos rfl]
              rcases hadd : env.respond (st.counter + 2 + 1)
                  (Request.walletAddEthereumChain
                    { spreadSource := argSpread arg,
                      chainId := toHexString ((desiredChainIdOf arg).getD 0) })
                with e1 | v1
              · simp only [hadd]
                intro e he
                rcases List.mem_append.mp he with h | h
                · rcases List.mem_cons.mp h with rfl | h2
                  · rfl
                  · rcases List.mem_cons.mp h2 with rfl | h3
                    · rfl
                    · exact absurd h3 (List.not_mem_nil e)
                · rcases List.mem_cons.mp h with rfl | h2
                  · rfl
                  · rcases List.mem_cons.mp h2 with rfl | h3
                    · rfl
                    · exact absurd h3 (List.not_mem_nil e)
              · simp only [hadd]
                intro e he
                rcases List.mem_append.mp he with h | h
                · rcases List.mem_append.mp h with h1 | h1
                  · rcases List.mem_cons.mp h1 with rfl | h2
                    · rfl
                    · rcases List.mem_cons.mp h2 with rfl | h3
                      · rfl
                      · exact absurd h3 (List.not_mem_nil e)
                  · rcases List.mem_cons.mp h1 with rfl | h2
                    · rfl
                    · rcases List.mem_cons.mp h2 with rfl | h3
                      · rfl
                      · exact absurd h3 (List.not_mem_nil e)
                · exact ih (ConnState.mk st.eagerConnection (some pe)
                    (st.counter + 2 + 1 + 1)) _ hE e h
            | false =>
              rw [if_neg Bool.false_ne_true]
              intro e he
              rcases List.mem_append.mp he with h | h
              · rcases List.mem_cons.mp h with rfl | h2
                · rfl
                · rcases List.mem_cons.mp h2 with rfl | h3
                  · rfl
                  · exact absurd h3 (List.not_mem_nil e)
              · rcases List.mem_cons.mp h with rfl | h2
                · rfl
                · exact absurd h2 (List.not_mem_nil e)
          · simp only [hsw]
            intro e he
            rcases List.mem_append.mp he with h | h
            · rcases List.mem_append.mp h with h1 | h1
              · rcases List.mem_cons.mp h1 with rfl | h2
                · rfl
                · rcases List.mem_cons.mp h2 with rfl | h3
                  · rfl
                  · exact absurd h3 (List.not_mem_nil e)
              · rcases List.mem_cons.mp h1 with rfl | h2
                · rfl
                · exact absurd h2 (List.not_mem_nil e)
            · exact ih (ConnState.mk st.eagerConnection (some pe)
                (st.counter + 2 + 1)) _ hE e h

/-- Claim C4: initialization is memoized and runs at most once per
    instance: after any call the memo flag is set, a call on a state with
    the flag set returns at once with no effects (so repeated or
    interleaved callers beyond the first never rerun detection, selection
    or subscription), and running initialization twice in a row performs
    nothing the second time; initialization itself issues no provider
    request, and in every connectEagerly or activate run the whole
    initialization trace precedes everything else while no subscription
    effect ever occurs after it, so requests only reach the provider once
    initialization has completed. -/
theorem initialization_once_and_first :
    ∀ (env : ConnEnv) (st : ConnState),
      ((isomorphicInit env st).1.eagerConnection = true) ∧
      (st.eagerConnection = true → isomorphicInit env st = (st, [])) ∧
      (isomorphicInit env ((isomorphicInit env st).1) =
        ((isomorphicInit env st).1, [])) ∧
      (∀ e ∈ (isomorphicInit env st).2, e.isRequest = false) ∧
      (∃ t, (connectEagerly env st).2.1 =
          Effect.startActivation :: (isomorphicInit env st).2 ++ t ∧
          ∀ e ∈ t, e.isSubscribe = false) ∧
      (∀ fuel arg, ∃ t, (activate env (fuel + 1) st arg).2.1 =
          (isomorphicInit env st).2 ++ t ∧ ∀ e ∈ t, e.isSubscribe = false) := by
  intro env st
  refine ⟨isomorphicInit_eager env st, isomorphicInit_of_eager env st,
    isomorphicInit_of_eager env _ (isomorphicInit_eager env st),
    fun e he => (isomorphicInit_trace_mem env st e he).2.2.2.2, ?_, ?_⟩
  · rcases hprov : (isomorphicInit env st).1.provider with _ | pe
    · refine ⟨[Effect.cancelActivation], ?_, ?_⟩
      · simp [connectEagerly, hprov]
      · intro e he
        rcases List.mem_cons.mp he with rfl | h2
        · rfl
        · exact absurd h2 (List.not_mem_nil e)
    · rcases hq : (requestPair env (isomorphicInit env st).1 Request.ethAccounts).2.2
        with e0 | vp
      · refine ⟨[Effect.request Request.ethChainId, Effect.request Request.ethAccounts,
          Effect.consoleDebug, Effect.resetState], ?_, by decide⟩
        simp [connectEagerly, hprov, hq, requestPair_trace]
      · cases hlen : ((RpcResult.asAccounts vp.2).length != 0) with
        | true =>
          refine ⟨[Effect.request Request.ethChainId, Effect.request Request.ethAccounts,
            Effect.update (some (parseChainId (RpcResult.asString vp.1)))
              (some (RpcResult.asAccounts vp.2))], ?_, ?_⟩
          · simp [connectEagerly, hprov, hq, requestPair_trace, hlen]
          · intro e he
            rcases List.mem_cons.mp he with rfl | h2
            · rfl
            · rcases List.mem_cons.mp h2 with rfl | h3
              · rfl
              · rcases List.mem_cons.mp h3 with rfl | h4
                · rfl
                · exact absurd h4 (List.not_mem_nil e)
        | false =>
          refine ⟨[Effect.request Request.ethChainId, Effect.request Request.ethAccounts,
            Effect.consoleDebug, Effect.resetState], ?_, by decide⟩
          simp [connectEagerly, hprov, hq, requestPair_trace, hlen]
  · intro fuel arg
    have hs := requestPair_state env (isomorphicInit env st).1 Request.ethRequestAccounts
    have ht := requestPair_trace env (isomorphicInit env st).1 Request.ethRequestAccounts
    rcases hprov : (isomorphicInit env st).1.provider with _ | pe
    · refine ⟨[], ?_, fun e he => absurd he (List.not_mem_nil e)⟩
      simp [activate, hprov]
    · rcases hq : (requestPair env (isomorphicInit env st).1 Request.ethRequestAccounts).2.2
        with e0 | vp
      · refine ⟨[Effect.request Request.ethChainId, Effect.request Request.ethRequestAccounts],
          ?_, by decide⟩
        simp [activate, hprov, hq, ht]
      · cases hcond : (jsFalsy (desiredChainIdOf arg) ||
            jsEq (parseChainId (RpcResult.asString vp.1)) (desiredChainIdOf arg)) with
        | true =>
          refine ⟨[Effect.request Request.ethChainId, Effect.request Request.ethRequestAccounts,
            Effect.update (some (parseChainId (RpcResult.asString vp.1)))
              (some (RpcResult.asAccounts vp.2))], ?_, ?_⟩
          · simp [activate, hprov, hq, ht, hcond]
          · intro e he
            rcases List.mem_cons.mp he with rfl | h2
            · rfl
            · rcases List.mem_cons.mp h2 with rfl | h3
              · rfl
              · rcases List.mem_cons.mp h3 with rfl | h4
                · rfl
                · exact absurd h4 (List.not_mem_nil e)
        | false =>
          rcases hsw : env.respond ((isomorphicInit env st).1.counter + 2)
              (Request.walletSwitchEthereumChain
                (toHexString ((desiredChainIdOf arg).getD 0)))
            with e0 | v0
          · cases hcode : (e0.code == 4902 && !(argIsNumber arg)) with
            | true =>
              rcases hadd : env.respond ((isomorphicInit env st).1.counter + 2 + 1)
                  (Request.walletAddEthereumChain
                    { spreadSource := argSpread arg,
                      chainId := toHexString ((desiredChainIdOf arg).getD 0) })
                with e1 | v1
              · refine ⟨[Effect.request Request.ethChainId,
                  Effect.request Request.ethRequestAccounts,
                  Effect.request (Request.walletSwitchEthereumChain
                    (toHexString ((desiredChainIdOf arg).getD 0))),
                  Effect.request (Request.walletAddEthereumChain
                    { spreadSource := argSpread arg,
                      chainId := toHexString ((desiredChainIdOf arg).getD 0) })], ?_, ?_⟩
                · simp [activate, hprov, hq, ht, hs, hcond, hsw, hcode, hadd]
                · intro e he
                  rcases List.mem_cons.mp he with rfl | h2
                  · rfl
                  · rcases List.mem_cons.mp h2 with rfl | h3
                    · rfl
                    · rcases List.mem_cons.mp h3 with rfl | h4
                      · rfl
                      · rcases List.mem_cons.mp h4 with rfl | h5
                        · rfl
                        · exact absurd h5 (List.not_mem_nil e)
              · refine ⟨[Effect.request Request.ethChainId,
                  Effect.request Request.ethRequestAccounts,
                  Effect.request (Request.walletSwitchEthereumChain
                    (toHexString ((desiredChainIdOf arg).getD 0))),
                  Effect.request (Request.walletAddEthereumChain
                    { spreadSource := argSpread arg,
                      chainId := toHexString ((desiredChainIdOf arg).getD 0) })] ++
                  (activate env fuel
                    (ConnState.mk (isomorphicInit env st).1.eagerConnection (some pe)
                      ((isomorphicInit env st).1.counter + 2 + 1 + 1))
                    (some (ActivateArg.id ((desiredChainIdOf arg).getD 0)))).2.1, ?_, ?_⟩
                · simp [activate, hprov, hq, ht, hs, hcond, hsw, hcode, hadd]
                · intro e he
                  rcases List.mem_append.mp he with h | h
                  · rcases List.mem_cons.mp h with rfl | h2
                    · rfl
                    · rcases List.mem_cons.mp h2 with rfl | h3
                      · rfl
                      · rcases List.mem_cons.mp h3 with rfl | h4
                        · rfl
                        · rcases List.mem_cons.mp h4 with rfl | h5
                          · rfl
                          · exact absurd h5 (List.not_mem_nil e)
                  · refine activate_no_subscribe env fuel _ _ ?_ e h
                    exact isomorphicInit_eager env st
            | false =>
              refine ⟨[Effect.request Request.ethChainId,
                Effect.request Request.ethRequestAccounts,
                Effect.request (Request.walletSwitchEthereumChain
                  (toHexString ((desiredChainIdOf arg).getD 0)))], ?_, ?_⟩
              · simp [activate, hprov, hq, ht, hs, hcond, hsw, hcode]
              · intro e he
                rcases List.mem_cons.mp he with rfl | h2
                · rfl
                · rcases List.mem_cons.mp h2 with rfl | h3
                  · rfl
                  · rcases List.mem_cons.mp h3 with rfl | h4
                    · rfl
                    · exact absurd h4 (List.not_mem_nil e)
          · refine ⟨[Effect.request Request.ethChainId,
              Effect.request Request.ethRequestAccounts,
              Effect.request (Request.walletSwitchEthereumChain
                (toHexString ((desiredChainIdOf arg).getD 0)))] ++
              (activate env fuel
                (ConnState.mk (isomorphicInit env st).1.eagerConnection (some pe)
                  ((isomorphicInit env st).1.counter + 2 + 1))
                (some (ActivateArg.id ((desiredChainIdOf arg).getD 0)))).2.1, ?_, ?_⟩
            · simp [activate, hprov, hq, ht, hs, hcond, hsw]
            · intro e he
              rcases List.mem_append.mp he with h | h
              · rcases List.mem_cons.mp h with rfl | h2
                · rfl
                · rcases List.mem_cons.mp h2 with rfl | h3
                  · rfl
                  · rcases List.mem_cons.mp h3 with rfl | h4
                    · rfl
                    · exact absurd h4 (List.not_mem_nil e)
              · refine activate_no_subscribe env fuel _ _ ?_ e h
                exact isomorphicInit_eager env st

/-- Claim C4 witness: at a concrete environment, a second initialization
    is a no-op, and initialization on an already-initialized state is the
    identity with no effects. -/
theorem initialization_once_and_first_witness :
    isomorphicInit envPresent ((isomorphicInit envPresent stFresh).1) =
      ((isomorphicInit envPresent stFresh).1, []) ∧
    isomorphicInit envPresent stReady = (stReady, []) :=
  ⟨(initialization_once_and_first envPresent stFresh).2.2.1,
   (initialization_once_and_first envPresent stReady).2.1 rfl⟩
